import Mathlib

/-
Verification of the AmaCoach fitness data service (models.py, database.py,
server.py) against its natural-language specification.

The SQLite-backed storage layer is shallowly embedded as pure functions over
an explicit `DBState`.  Machine details that the claims do not depend on are
modelled at a documented granularity:
  * `datetime.now()` is passed in explicitly as a `Nat` timestamp;
  * SQL `REAL` values are modelled as `Int` (no claim depends on float
    arithmetic);
  * Python's `json.loads` is modelled by a fuel-bounded recursive parser
    covering null / booleans / integers / strings / arrays / objects
    (string escape sequences and fractional numbers are not modelled; no
    claim exercises them);
  * SQLite `LIKE '%"v"%'` patterns are modelled as substring containment of
    the quoted value in the stored serialized text (the filter values used
    by the claims contain no LIKE wildcard characters).
Exceptions are modelled with `Except PyError`; the `get_cursor` context
manager of database.py, which catches every exception raised inside a
transaction and rethrows it as `DatabaseError("Database operation failed:
" + str(e))`, is modelled by `wrapCursor`.
-/

namespace AmaCoach

/-! ## Character-list helpers (substring search used for SQL LIKE and for
the trigger-message check in `Database.save_workout_plan`) -/

def charsBeginWith : List Char → List Char → Bool
  | [], _ => true
  | _ :: _, [] => false
  | a :: as, b :: bs => a == b && charsBeginWith as bs

def charsHaveSub (pat : List Char) : List Char → Bool
  | [] => charsBeginWith pat []
  | c :: rest => charsBeginWith pat (c :: rest) || charsHaveSub pat rest

/-- Python's `needle in haystack` substring test. -/
def str_has_sub (haystack needle : String) : Bool :=
  charsHaveSub needle.data haystack.data

/-! ## JSON values and a model of Python's `json.loads` -/

inductive JsonValue where
  | null
  | bool (b : Bool)
  | num (n : Int)
  | str (s : String)
  | arr (xs : List JsonValue)
  | obj (kvs : List (String × JsonValue))
deriving Repr

def skipWs : List Char → List Char
  | c :: rest =>
    if c == ' ' || c == '\t' || c == '\n' || c == '\r' then skipWs rest
    else c :: rest
  | [] => []

def parseStringBody (acc : List Char) : List Char → Option (String × List Char)
  | [] => none
  | c :: rest =>
    if c == '"' then some (String.mk acc.reverse, rest)
    else if c == '\\' then none
    else parseStringBody (c :: acc) rest

def parseDigits (acc : Nat) (progress : Bool) :
    List Char → Option (Nat × List Char)
  | [] => if progress then some (acc, []) else none
  | c :: rest =>
    if c.isDigit then parseDigits (acc * 10 + (c.toNat - 48)) true rest
    else if progress then some (acc, c :: rest)
    else none

def lbraceChar : Char := Char.ofNat 123
def rbraceChar : Char := Char.ofNat 125

mutual

def parseVal : Nat → List Char → Option (JsonValue × List Char)
  | 0, _ => none
  | fuel + 1, cs =>
    match skipWs cs with
    | [] => none
    | c :: rest =>
      if c == 'n' then
        if charsBeginWith "ull".data rest then
          some (JsonValue.null, rest.drop 3)
        else none
      else if c == 't' then
        if charsBeginWith "rue".data rest then
          some (JsonValue.bool true, rest.drop 3)
        else none
      else if c == 'f' then
        if charsBeginWith "alse".data rest then
          some (JsonValue.bool false, rest.drop 4)
        else none
      else if c == '"' then
        match parseStringBody [] rest with
        | some (s, rest') => some (JsonValue.str s, rest')
        | none => none
      else if c == '-' then
        match parseDigits 0 false rest with
        | some (n, rest') => some (JsonValue.num (-(n : Int)), rest')
        | none => none
      else if c.isDigit then
        match parseDigits 0 false (c :: rest) with
        | some (n, rest') => some (JsonValue.num (n : Int), rest')
        | none => none
      else if c == '[' then
        match skipWs rest with
        | ']' :: rest' => some (JsonValue.arr [], rest')
        | cs' =>
          match parseElems fuel cs' with
          | some (vs, rest') => some (JsonValue.arr vs, rest')
          | none => none
      else if c == lbraceChar then
        match skipWs rest with
        | d :: rest' =>
          if d == rbraceChar then some (JsonValue.obj [], rest')
          else
            match parseMembers fuel (d :: rest') with
            | some (kvs, rest'') => some (JsonValue.obj kvs, rest'')
            | none => none
        | [] => none
      else none

def parseElems : Nat → List Char → Option (List JsonValue × List Char)
  | 0, _ => none
  | fuel + 1, cs =>
    match parseVal fuel cs with
    | none => none
    | some (v, rest) =>
      match skipWs rest with
      | ',' :: rest' =>
        match parseElems fuel rest' with
        | some (vs, rest'') => some (v :: vs, rest'')
        | none => none
      | ']' :: rest' => some ([v], rest')
      | _ => none

def parseMembers : Nat → List Char → Option (List (String × JsonValue) × List Char)
  | 0, _ => none
  | fuel + 1, cs =>
    match skipWs cs with
    | '"' :: rest =>
      match parseStringBody [] rest with
      | none => none
      | some (k, rest') =>
        match skipWs rest' with
        | ':' :: rest'' =>
          match parseVal fuel rest'' with
          | none => none
          | some (v, rest3) =>
            match skipWs rest3 with
            | ',' :: rest4 =>
              match parseMembers fuel rest4 with
              | some (kvs, rest5) => some ((k, v) :: kvs, rest5)
              | none => none
            | d :: rest4 =>
              if d == rbraceChar then some ([(k, v)], rest4) else none
            | [] => none
        | _ => none
    | _ => none

end

/-- Model of Python's `json.loads`: decode errors are returned as
`Except.error` (standing for `json.JSONDecodeError`). -/
def json_loads (s : String) : Except String JsonValue :=
  match parseVal (2 * s.length + 2) s.data with
  | some (v, rest) =>
    if skipWs rest == [] then Except.ok v else Except.error "Extra data"
  | none => Except.error "Expecting value"

/-! ## models.py -/

/-- models.py `serialize_json_field` on a list of strings: `json.dumps`
renders the list with `", "` separators and double-quoted elements. -/
def serialize_json_field (data : List String) : String :=
  "[" ++ String.intercalate ", " (data.map (fun s => "\"" ++ s ++ "\"")) ++ "]"

/-- models.py `deserialize_json_field`: `json.loads` guarded by a
try/except that degrades any decode failure to the empty list. -/
def deserialize_json_field (json_str : String) : JsonValue :=
  match json_loads json_str with
  | Except.ok v => v
  | Except.error _ => JsonValue.arr []

/-- models.py `validate_difficulty_level`: `1 <= difficulty <= 5`. -/
def validate_difficulty_level (difficulty : Int) : Bool :=
  decide (1 ≤ difficulty ∧ difficulty ≤ 5)

/-- The record-type enumeration of models.py / the `personal_records`
CHECK constraint of database.py. -/
def valid_types : List String := ["weight", "reps", "time", "distance"]

/-- Python's `str.lower()` (ASCII case folding, which is all the
enumeration needs), stated via `List.map` so that it evaluates. -/
def str_lower (s : String) : String :=
  String.mk (s.data.map Char.toLower)

/-- models.py `validate_record_type`: `record_type.lower() in valid_types`. -/
def validate_record_type (record_type : String) : Bool :=
  valid_types.contains (str_lower record_type)

/-! ## database.py: table rows and database state

`muscle_groups` / `equipment_needed` are kept in their stored form (the
serialized JSON text), exactly as the `exercises` table stores them; reads
pass them through `deserialize_json_field`.  Timestamps are `Nat`. -/

structure UserRow where
  user_id : String
  name : String
  created_date : Nat
  rotation_weeks : Int
  last_rotation_date : Option Nat
  current_cycle_number : Int
deriving Repr, DecidableEq

structure ExerciseRow where
  exercise_id : Int
  name : String
  description : String
  muscle_groups : String
  equipment_needed : String
  difficulty_level : Int
  instructions : String
  created_date : Nat
  created_by_user_id : String
deriving Repr, DecidableEq

structure PlanRow where
  plan_id : Int
  user_id : String
  plan_name : String
  cycle_number : Int
  is_active : Bool
  created_date : Nat
  notes : Option String
deriving Repr, DecidableEq

structure PlannedExerciseRow where
  planned_exercise_id : Int
  plan_id : Int
  exercise_id : Int
  sets : Int
  reps : Int
  weight : Option Int
  duration : Option Int
  notes : Option String
  order_in_plan : Int
deriving Repr, DecidableEq

structure PersonalRecordRow where
  record_id : Int
  user_id : String
  exercise_name : String
  record_type : String
  value : Int
  unit : String
  date_achieved : Nat
  notes : Option String
deriving Repr, DecidableEq

/-- One element of the `exercises_list` argument of `save_workout_plan`. -/
structure PlannedInput where
  exercise_id : Int
  sets : Int
  reps : Int
  weight : Option Int
  duration : Option Int
  notes : Option String
deriving Repr, DecidableEq

structure DBState where
  users : List UserRow
  exercises : List ExerciseRow
  plans : List PlanRow
  planned : List PlannedExerciseRow
  records : List PersonalRecordRow
  next_exercise_id : Int
  next_plan_id : Int
  next_planned_id : Int
  next_record_id : Int
deriving Repr, DecidableEq

/-! ## Exceptions and the transaction boundary -/

/-- The exception kinds of database.py.  `integrityError` stands for
`sqlite3.IntegrityError` raised by a constraint or trigger; `valueError`
and `databaseError` are the `ValueError` / `DatabaseError` of the code. -/
inductive PyError where
  | valueError (msg : String)
  | databaseError (msg : String)
  | integrityError (msg : String)
deriving Repr, DecidableEq

/-- Python's `str(e)` on the modelled exceptions. -/
def pyMsg : PyError → String
  | PyError.valueError m => m
  | PyError.databaseError m => m
  | PyError.integrityError m => m

/-- database.py `Database.get_cursor`: every exception raised inside the
transaction body triggers a rollback and is rethrown as
`DatabaseError("Database operation failed: " + str(e))`. -/
def wrapCursor {α : Type} : Except PyError α → Except PyError α
  | Except.ok a => Except.ok a
  | Except.error e =>
      Except.error (PyError.databaseError ("Database operation failed: " ++ pyMsg e))

/-- server.py's uniform error envelope. -/
structure ErrorResponse where
  error : String
  message : String
  code : Nat
deriving Repr, DecidableEq

/-- server.py `handle_database_error` (the `UserPermissionError` branch is
unreachable from the operations modelled here and is omitted; a raw
`sqlite3.IntegrityError` would fall into the catch-all branch, but
`wrapCursor` always rewraps it first). -/
def handle_database_error : PyError → ErrorResponse
  | PyError.valueError m => ⟨"Invalid input", m, 400⟩
  | PyError.databaseError _ => ⟨"Database error", "Internal database error", 500⟩
  | PyError.integrityError _ => ⟨"Internal error", "An unexpected error occurred", 500⟩

/-! ## database.py: user operations -/

/-- database.py `Database.get_user` (read-only; its cursor never raises). -/
def get_user (st : DBState) (user_id : String) : Option UserRow :=
  st.users.find? (fun u => u.user_id == user_id)

/-- database.py `Database.create_user`: if the user id is already present
the existing row is re-read and returned unchanged, otherwise a fresh row
with `rotation_weeks = 6` and `current_cycle_number = 1` is inserted. -/
def create_user (st : DBState) (now : Nat) (user_id name : String) :
    Except PyError (DBState × UserRow) :=
  wrapCursor (
    match st.users.find? (fun u => u.user_id == user_id) with
    | some u => Except.ok (st, u)
    | none =>
      let row : UserRow := ⟨user_id, name, now, 6, none, 1⟩
      Except.ok ({ st with users := st.users ++ [row] }, row))

/-- database.py `Database.update_user_rotation`: a bare SQL UPDATE that
stamps `last_rotation_date` and increments `current_cycle_number` on the
matching row; with no matching row it affects nothing and still commits. -/
def update_user_rotation (st : DBState) (now : Nat) (user_id : String) :
    Except PyError DBState :=
  wrapCursor (Except.ok
    { st with users := st.users.map (fun u =>
        if u.user_id == user_id then
          { u with last_rotation_date := some now,
                   current_cycle_number := u.current_cycle_number + 1 }
        else u) })

/-! ## database.py: exercise operations -/

/-- database.py `Database.create_exercise`: the difficulty check runs
before the transaction opens (so its `ValueError` is not rewrapped); the
`UNIQUE` name constraint and the `created_by_user_id` foreign key raise
`sqlite3.IntegrityError` inside the transaction, which `get_cursor`
rewraps into a generic `DatabaseError`. -/
def create_exercise (st : DBState) (now : Nat) (name description : String)
    (muscle_groups equipment_needed : List String) (difficulty_level : Int)
    (instructions created_by_user_id : String) :
    Except PyError (DBState × ExerciseRow) :=
  if validate_difficulty_level difficulty_level then
    wrapCursor (
      if st.exercises.any (fun e => e.name == name) then
        Except.error (PyError.integrityError "UNIQUE constraint failed: exercises.name")
      else if (st.users.find? (fun u => u.user_id == created_by_user_id)).isNone then
        Except.error (PyError.integrityError "FOREIGN KEY constraint failed")
      else
        let row : ExerciseRow :=
          ⟨st.next_exercise_id, name, description,
           serialize_json_field muscle_groups,
           serialize_json_field equipment_needed,
           difficulty_level, instructions, now, created_by_user_id⟩
        Except.ok ({ st with exercises := st.exercises ++ [row],
                             next_exercise_id := st.next_exercise_id + 1 }, row))
  else Except.error (PyError.valueError "Difficulty level must be between 1 and 5")

/-- The SQL pattern `field LIKE '%"value"%'` built by `list_exercises`:
containment of the double-quoted value in the stored serialized text. -/
def likeQuoted (field value : String) : Bool :=
  str_has_sub field ("\"" ++ value ++ "\"")

/-- The muscle-group condition of `Database.list_exercises`: appended to
the WHERE clause only when the argument is truthy (`if muscle_group:`). -/
def mgCondition (muscle_group : Option String) (e : ExerciseRow) : Bool :=
  match muscle_group with
  | none => true
  | some s => if s == "" then true else likeQuoted e.muscle_groups s

/-- The equipment condition of `Database.list_exercises`. -/
def eqCondition (equipment : Option String) (e : ExerciseRow) : Bool :=
  match equipment with
  | none => true
  | some s => if s == "" then true else likeQuoted e.equipment_needed s

/-- The difficulty condition of `Database.list_exercises` (`if difficulty:`
is a truthiness test, so a provided 0 is ignored). -/
def diffCondition (difficulty : Option Int) (e : ExerciseRow) : Bool :=
  match difficulty with
  | none => true
  | some d => if d == 0 then true else e.difficulty_level == d

/-- database.py `Database.list_exercises`: WHERE clauses joined by AND,
then `ORDER BY name`. -/
def list_exercises (st : DBState) (muscle_group equipment : Option String)
    (difficulty : Option Int) : List ExerciseRow :=
  List.insertionSort (fun a b => a.name ≤ b.name)
    (st.exercises.filter (fun e =>
      mgCondition muscle_group e && eqCondition equipment e &&
      diffCondition difficulty e))

/-- database.py `Database.get_exercise_by_id`. -/
def get_exercise_by_id (st : DBState) (exercise_id : Int) : Option ExerciseRow :=
  st.exercises.find? (fun e => e.exercise_id == exercise_id)

/-! ## database.py: workout plan operations -/

/-- database.py `Database.get_active_plan_count`. -/
def get_active_plan_count (st : DBState) (user_id : String) : Nat :=
  (st.plans.filter (fun p => p.user_id == user_id && p.is_active)).length

/-- The message raised by the `enforce_max_active_plans` trigger. -/
def triggerMessage : String := "User cannot have more than 3 active workout plans"

/-- The substring that `Database.save_workout_plan` looks for in the
caught `sqlite3.IntegrityError`. -/
def limitPhrase : String := "cannot have more than 3 active workout plans"

/-- The `INSERT INTO workout_plans` of `save_workout_plan`, including the
BEFORE INSERT trigger (the row is always inserted with `is_active = 1`)
and the `UNIQUE(user_id, plan_name, cycle_number)` constraint. -/
def insertPlanRow (st : DBState) (now : Nat) (user_id plan_name : String)
    (cycle_number : Int) (notes : Option String) :
    Except PyError (DBState × PlanRow) :=
  if 3 ≤ get_active_plan_count st user_id then
    Except.error (PyError.integrityError triggerMessage)
  else if st.plans.any (fun p =>
      p.user_id == user_id && p.plan_name == plan_name &&
      p.cycle_number == cycle_number) then
    Except.error (PyError.integrityError
      "UNIQUE constraint failed: workout_plans.user_id, workout_plans.plan_name, workout_plans.cycle_number")
  else
    let row : PlanRow := ⟨st.next_plan_id, user_id, plan_name, cycle_number, true, now, notes⟩
    Except.ok ({ st with plans := st.plans ++ [row],
                         next_plan_id := st.next_plan_id + 1 }, row)

/-- The `INSERT INTO planned_exercises` loop of `save_workout_plan`
(`enumerate(exercises_list, 1)` supplies `order_in_plan`); the
`exercise_id` foreign key raises `sqlite3.IntegrityError` when it does not
resolve. -/
def insertPlannedLoop (st : DBState) (plan_id : Int) (ord : Int) :
    List PlannedInput → Except PyError DBState
  | [] => Except.ok st
  | x :: rest =>
    if (st.exercises.find? (fun e => e.exercise_id == x.exercise_id)).isNone then
      Except.error (PyError.integrityError "FOREIGN KEY constraint failed")
    else
      let row : PlannedExerciseRow :=
        ⟨st.next_planned_id, plan_id, x.exercise_id, x.sets, x.reps,
         x.weight, x.duration, x.notes, ord⟩
      insertPlannedLoop
        { st with planned := st.planned ++ [row],
                  next_planned_id := st.next_planned_id + 1 }
        plan_id (ord + 1) rest

/-- The inner `except sqlite3.IntegrityError` of `save_workout_plan`: a
trigger message containing the 3-plan phrase becomes the friendlier
`ValueError`; any other integrity error becomes
`DatabaseError("Failed to save workout plan: ...")`.  Either way the
surrounding `get_cursor` then rewraps the result (see `wrapCursor`). -/
def catchPlanIntegrity (r : Except PyError (DBState × PlanRow)) :
    Except PyError (DBState × PlanRow) :=
  match r with
  | Except.error (PyError.integrityError m) =>
    if str_has_sub m limitPhrase then
      Except.error (PyError.valueError
        "User already has 3 active workout plans. Cannot create more.")
    else
      Except.error (PyError.databaseError ("Failed to save workout plan: " ++ m))
  | r => r

/-- database.py `Database.save_workout_plan`: reads the owner's
`current_cycle_number`, inserts the plan row (trigger-checked, always
active) and its planned-exercise rows in one transaction, and returns the
new plan.  There is no `create_as_set` parameter and no row is ever
deactivated here. -/
def save_workout_plan (st : DBState) (now : Nat) (user_id plan_name : String)
    (exercises_list : List PlannedInput) (notes : Option String) :
    Except PyError (DBState × PlanRow) :=
  wrapCursor (
    match get_user st user_id with
    | none => Except.error (PyError.valueError ("User " ++ user_id ++ " not found"))
    | some user =>
      catchPlanIntegrity (
        match insertPlanRow st now user_id plan_name user.current_cycle_number notes with
        | Except.error e => Except.error e
        | Except.ok (st1, row) =>
          match insertPlannedLoop st1 row.plan_id 1 exercises_list with
          | Except.error e => Except.error e
          | Except.ok st2 => Except.ok (st2, row)))

/-- The result shape of `Database.load_workout_plan`: a single
plan-with-exercises view, a missing-plan marker, or the list of all
active plans. -/
inductive LoadPlanResult where
  | single (plan : PlanRow) (exercises : List (PlannedExerciseRow × ExerciseRow))
  | notFound
  | plans (ps : List PlanRow)
deriving Repr

/-- Python truthiness of an optional integer (`if plan_id:`). -/
def intOptTruthy : Option Int → Bool
  | none => false
  | some n => n != 0

/-- The `JOIN` of `load_workout_plan`'s single-plan branch: the plan's
line items ordered by `order_in_plan`, each paired with its exercise
(an inner join drops a dangling reference). -/
def planExercisesJoined (st : DBState) (plan_id : Int) :
    List (PlannedExerciseRow × ExerciseRow) :=
  (List.insertionSort (fun a b => a.order_in_plan ≤ b.order_in_plan)
      (st.planned.filter (fun pe => pe.plan_id == plan_id))).filterMap
    (fun pe => (st.exercises.find? (fun e => e.exercise_id == pe.exercise_id)).map
      (fun e => (pe, e)))

/-- The all-active-plans branch of `load_workout_plan`:
`WHERE user_id = ? AND is_active = 1 ORDER BY created_date DESC`. -/
def activePlansDesc (st : DBState) (user_id : String) : List PlanRow :=
  List.insertionSort (fun a b => b.created_date ≤ a.created_date)
    (st.plans.filter (fun p => p.user_id == user_id && p.is_active))

/-- database.py `Database.load_workout_plan`: `if plan_id:` is a
truthiness test, so both an omitted `plan_id` and `plan_id = 0` take the
all-active-plans branch. -/
def load_workout_plan (st : DBState) (user_id : String) (plan_id : Option Int) :
    LoadPlanResult :=
  if intOptTruthy plan_id then
    let n := plan_id.getD 0
    match st.plans.find? (fun p => p.plan_id == n && p.user_id == user_id) with
    | none => LoadPlanResult.notFound
    | some row => LoadPlanResult.single row (planExercisesJoined st row.plan_id)
  else
    LoadPlanResult.plans (activePlansDesc st user_id)

/-- database.py `Database.deactivate_user_plans`. -/
def deactivate_user_plans (st : DBState) (user_id : String) :
    Except PyError DBState :=
  wrapCursor (Except.ok
    { st with plans := st.plans.map (fun p =>
        if p.user_id == user_id && p.is_active then { p with is_active := false }
        else p) })

/-! ## database.py: personal record operations -/

/-- database.py `Database.save_personal_record`: the (case-insensitive)
domain validation runs before the transaction opens; the table's CHECK
constraint accepts only the exact lowercase spellings, and its
`sqlite3.IntegrityError` is rewrapped by `get_cursor` into a generic
`DatabaseError`. -/
def save_personal_record (st : DBState) (now : Nat)
    (user_id exercise_name record_type : String) (value : Int) (unit : String)
    (date : Option Nat) (notes : Option String) :
    Except PyError (DBState × PersonalRecordRow) :=
  if validate_record_type record_type then
    wrapCursor (
      if (valid_types.contains record_type) = false then
        Except.error (PyError.integrityError "CHECK constraint failed: record_type")
      else if (st.users.find? (fun u => u.user_id == user_id)).isNone then
        Except.error (PyError.integrityError "FOREIGN KEY constraint failed")
      else
        let row : PersonalRecordRow :=
          ⟨st.next_record_id, user_id, exercise_name, record_type, value, unit,
           date.getD now, notes⟩
        Except.ok ({ st with records := st.records ++ [row],
                             next_record_id := st.next_record_id + 1 }, row))
  else
    Except.error (PyError.valueError
      "Invalid record type. Must be one of: weight, reps, time, distance")

/-! ## Sequences of save calls (for the active-plan cap invariant) -/

/-- The arguments of one `save_workout_plan` call. -/
structure SaveCall where
  now : Nat
  user_id : String
  plan_name : String
  exercises_list : List PlannedInput
  notes : Option String
deriving Repr

/-- Runs a sequence of `save_workout_plan` calls; a failed call rolls the
transaction back, leaving the state unchanged. -/
def applySaves (st : DBState) : List SaveCall → DBState
  | [] => st
  | c :: rest =>
    match save_workout_plan st c.now c.user_id c.plan_name c.exercises_list c.notes with
    | Except.ok (st', _) => applySaves st' rest
    | Except.error _ => applySaves st rest

/-! ## Helper lemmas -/

theorem wrapCursor_ok {α : Type} {r : Except PyError α} {a : α}
    (h : wrapCursor r = Except.ok a) : r = Except.ok a := by
  cases r with
  | ok b => simpa [wrapCursor] using h
  | error e => simp [wrapCursor] at h

theorem catchPlanIntegrity_ok {r : Except PyError (DBState × PlanRow)}
    {a : DBState × PlanRow}
    (h : catchPlanIntegrity r = Except.ok a) : r = Except.ok a := by
  cases r with
  | ok b => simpa [catchPlanIntegrity] using h
  | error e =>
    cases e with
    | valueError m => simp [catchPlanIntegrity] at h
    | databaseError m => simp [catchPlanIntegrity] at h
    | integrityError m =>
      simp only [catchPlanIntegrity] at h
      split at h <;> simp at h

theorem find?_append_of_none {α : Type} {p : α → Bool} {l1 : List α}
    (l2 : List α) (h : l1.find? p = none) :
    (l1 ++ l2).find? p = l2.find? p := by
  induction l1 with
  | nil => rfl
  | cons x xs ih =>
    rw [List.find?_cons] at h
    cases hp : p x with
    | false =>
      rw [hp] at h
      simpa [List.cons_append, List.find?_cons, hp] using ih h
    | true => rw [hp] at h; exact absurd h (by simp)

theorem insertPlannedLoop_ok {l : List PlannedInput} :
    ∀ (st : DBState) (pid ord : Int) (st' : DBState),
      insertPlannedLoop st pid ord l = Except.ok st' →
      st'.plans = st.plans ∧ st'.users = st.users := by
  induction l with
  | nil =>
    intro st pid ord st' h
    simp only [insertPlannedLoop, Except.ok.injEq] at h
    rw [← h]; exact ⟨rfl, rfl⟩
  | cons x rest ih =>
    intro st pid ord st' h
    simp only [insertPlannedLoop] at h
    split at h
    · simp at h
    · have h2 := ih _ _ _ _ h
      exact h2

theorem insertPlanRow_ok {st : DBState} {now : Nat} {uid pn : String}
    {cyc : Int} {ns : Option String} {st1 : DBState} {row : PlanRow}
    (h : insertPlanRow st now uid pn cyc ns = Except.ok (st1, row)) :
    get_active_plan_count st uid ≤ 2 ∧
    row = ⟨st.next_plan_id, uid, pn, cyc, true, now, ns⟩ ∧
    st1 = { st with plans := st.plans ++ [row],
                    next_plan_id := st.next_plan_id + 1 } := by
  simp only [insertPlanRow] at h
  split at h
  · simp at h
  · split at h
    · simp at h
    · rename_i hcap hdup
      simp only [Except.ok.injEq, Prod.mk.injEq] at h
      refine ⟨by omega, h.2.symm, ?_⟩
      rw [← h.1, ← h.2]

/-- Structure of a successful `save_workout_plan`: the owner exists, the
returned plan snapshots the owner's cycle number, exactly one (active)
plan row is appended, the users table is untouched, and the trigger
guaranteed at most 2 plans were active beforehand. -/
theorem save_ok_spec {st : DBState} {now : Nat} {uid pn : String}
    {exs : List PlannedInput} {ns : Option String} {st' : DBState} {pl : PlanRow}
    (h : save_workout_plan st now uid pn exs ns = Except.ok (st', pl)) :
    ∃ user, get_user st uid = some user ∧
      pl = ⟨st.next_plan_id, uid, pn, user.current_cycle_number, true, now, ns⟩ ∧
      st'.plans = st.plans ++ [pl] ∧
      st'.users = st.users ∧
      get_active_plan_count st uid ≤ 2 := by
  have h1 := wrapCursor_ok h
  cases hgu : get_user st uid with
  | none => simp only [hgu] at h1; simp at h1
  | some user =>
    simp only [hgu] at h1
    have h2 := catchPlanIntegrity_ok h1
    cases hins : insertPlanRow st now uid pn user.current_cycle_number ns with
    | error e => simp only [hins] at h2; simp at h2
    | ok p =>
      obtain ⟨st1, row⟩ := p
      simp only [hins] at h2
      obtain ⟨hcap, hrow, hst1⟩ := insertPlanRow_ok hins
      cases hloop : insertPlannedLoop st1 row.plan_id 1 exs with
      | error e => simp only [hloop] at h2; simp at h2
      | ok st2 =>
        simp only [hloop, Except.ok.injEq, Prod.mk.injEq] at h2
        obtain ⟨hst', hpl⟩ := h2
        obtain ⟨hp, hu⟩ := insertPlannedLoop_ok _ _ _ _ hloop
        refine ⟨user, rfl, ?_, ?_, ?_, hcap⟩
        · rw [← hpl]; exact hrow
        · rw [← hst', hp, hst1, ← hpl]
        · rw [← hst', hu, hst1]

/-- Appending one active plan row for `uid` increments the active count
for `uid` and leaves every other user's count unchanged. -/
theorem count_append_active {st st' : DBState} {pl : PlanRow}
    (hplans : st'.plans = st.plans ++ [pl]) (hact : pl.is_active = true)
    (u : String) :
    get_active_plan_count st' u =
      get_active_plan_count st u + (if pl.user_id == u then 1 else 0) := by
  simp only [get_active_plan_count, hplans, List.filter_append, List.length_append]
  congr 1
  cases hq : pl.user_id == u with
  | true => simp [List.filter_cons, hq, hact]
  | false => simp [List.filter_cons, hq]

/-! ## Concrete fixtures used by witnesses and counterexamples -/

def u1row : UserRow := ⟨"u1", "User One", 0, 6, none, 1⟩

def pushupsRow : ExerciseRow :=
  ⟨1, "Push-ups", "Classic bodyweight chest exercise",
   serialize_json_field ["chest"], serialize_json_field ["bodyweight"],
   2, "Lower and push back up", 0, "u1"⟩

def planArow : PlanRow := ⟨1, "u1", "Plan A", 1, true, 0, none⟩
def planBrow : PlanRow := ⟨2, "u1", "Plan B", 1, true, 0, none⟩
def planCrow : PlanRow := ⟨3, "u1", "Plan C", 1, true, 0, none⟩

/-- A state holding user `u1` (cycle 1), the Push-ups exercise, and one
active plan. -/
def stOnePlan : DBState := ⟨[u1row], [pushupsRow], [planArow], [], [], 2, 2, 1, 1⟩

/-- A state holding user `u1` (cycle 1), the Push-ups exercise, and three
active plans. -/
def stThreePlans : DBState :=
  ⟨[u1row], [pushupsRow], [planArow, planBrow, planCrow], [], [], 2, 4, 1, 1⟩

/-- A state holding user `u1` and the Push-ups exercise, with no plans. -/
def stNoPlans : DBState := ⟨[u1row], [pushupsRow], [], [], [], 2, 1, 1, 1⟩

/-- The empty database. -/
def stEmpty : DBState := ⟨[], [], [], [], [], 1, 1, 1, 1⟩

/-! ## Claims -/

/-- C1 (code-bug evidence): `Database.save_workout_plan` has no
`create_as_set` parameter (server.py passes one, which raises `TypeError`
at runtime) and never deactivates existing rows: saving a plan for a user
with one active plan succeeds with TWO active plans afterwards, and the
pre-existing plan is still active — not "exactly one active plan, the
newly created one" as the claim states for `create_as_set=true`. -/
theorem C1_save_never_deactivates :
    ∃ st2 pl,
      save_workout_plan stOnePlan 5 "u1" "Plan B" [⟨1, 3, 10, none, none, none⟩] none
          = Except.ok (st2, pl) ∧
      get_active_plan_count st2 "u1" = 2 ∧
      planArow ∈ st2.plans ∧ planArow.is_active = true := by
  exact ⟨_, _, rfl, by decide, by decide, by decide⟩

/-- C4: `create_user` is idempotent — after any successful call, a second
call with the same user id returns the same state (no row inserted, user
count unchanged) and a record with the first call's `user_id` and `name`,
regardless of the name passed the second time. -/
theorem C4_create_user_idempotent {st : DBState} {now now2 : Nat}
    {uid nm nm2 : String} {st1 : DBState} {u1 : UserRow}
    (h : create_user st now uid nm = Except.ok (st1, u1)) :
    ∃ u2, create_user st1 now2 uid nm2 = Except.ok (st1, u2) ∧
      u2.user_id = u1.user_id ∧ u2.name = u1.name := by
  have h1 := wrapCursor_ok h
  cases hfind : st.users.find? (fun u => u.user_id == uid) with
  | some u =>
    simp only [hfind, Except.ok.injEq, Prod.mk.injEq] at h1
    obtain ⟨hst1, hu1⟩ := h1
    refine ⟨u, ?_, by rw [hu1], by rw [hu1]⟩
    simp only [create_user, ← hst1, hfind, wrapCursor]
  | none =>
    simp only [hfind, Except.ok.injEq, Prod.mk.injEq] at h1
    obtain ⟨hst1, hu1⟩ := h1
    refine ⟨u1, ?_, rfl, rfl⟩
    have hfind2 : st1.users.find? (fun u => u.user_id == uid) = some u1 := by
      rw [← hst1]
      simp only []
      rw [find?_append_of_none _ hfind, ← hu1]
      simp [List.find?_cons]
    simp only [create_user, hfind2, wrapCursor]

/-- C4 witness: concrete run — create `u9` as "Ann", then create `u9`
again as "Bob"; the second call leaves the single-user state unchanged
and returns the original name "Ann". -/
theorem C4_witness :
    ∃ u2, create_user ⟨[⟨"u9", "Ann", 0, 6, none, 1⟩], [], [], [], [], 1, 1, 1, 1⟩
            3 "u9" "Bob"
        = Except.ok (⟨[⟨"u9", "Ann", 0, 6, none, 1⟩], [], [], [], [], 1, 1, 1, 1⟩, u2) ∧
      u2.user_id = "u9" ∧ u2.name = "Ann" :=
  @C4_create_user_idempotent stEmpty 0 3 "u9" "Ann" "Bob"
    ⟨[⟨"u9", "Ann", 0, 6, none, 1⟩], [], [], [], [], 1, 1, 1, 1⟩
    ⟨"u9", "Ann", 0, 6, none, 1⟩ (by rfl)

/-- C6 (amended): `update_user_rotation` always succeeds; it stamps
`last_rotation_date = now` and increments `current_cycle_number` on the
matching user row, and when no user matches it silently succeeds as a
no-op (the bare SQL UPDATE matches zero rows) — no not-found condition is
surfaced. -/
theorem C6_rotation_amended (st : DBState) (now : Nat) (uid : String) :
    ∃ st', update_user_rotation st now uid = Except.ok st' ∧
      st'.users = st.users.map (fun u =>
        if u.user_id == uid then
          { u with last_rotation_date := some now,
                   current_cycle_number := u.current_cycle_number + 1 }
        else u) ∧
      ((∀ u ∈ st.users, u.user_id ≠ uid) → st' = st) := by
  refine ⟨_, rfl, rfl, ?_⟩
  intro hno
  show { st with users := _ } = st
  have hmap : st.users.map (fun u =>
      if u.user_id == uid then
        { u with last_rotation_date := some now,
                 current_cycle_number := u.current_cycle_number + 1 }
      else u) = st.users := by
    have := List.map_congr_left (l := st.users)
      (f := fun u : UserRow =>
        if u.user_id == uid then
          { u with last_rotation_date := some now,
                   current_cycle_number := u.current_cycle_number + 1 }
        else u)
      (g := fun u : UserRow => u) ?_
    · rw [this, List.map_id']
    · intro u hu
      simp [beq_eq_false_iff_ne.mpr (hno u hu)]
  rw [hmap]

/-- C6 counterexample: rotating a user id that does not exist returns
success (the unchanged empty state) and does not return any error — the
code never surfaces a not-found condition, contrary to the claim. -/
theorem C6_counterexample :
    update_user_rotation stEmpty 5 "ghost" = Except.ok stEmpty ∧
    ∀ e, update_user_rotation stEmpty 5 "ghost" ≠ Except.error e := by
  constructor
  · rfl
  · intro e h
    simp [update_user_rotation, wrapCursor, stEmpty] at h

/-- C6 witness: concrete run of the amended claim — rotating the id
"ghost" against a one-user state succeeds and leaves the state
unchanged. -/
theorem C6_witness :
    ∃ st', update_user_rotation ⟨[u1row], [], [], [], [], 1, 1, 1, 1⟩ 7 "ghost"
        = Except.ok st' ∧
      st' = ⟨[u1row], [], [], [], [], 1, 1, 1, 1⟩ := by
  obtain ⟨st', h1, _, h3⟩ :=
    C6_rotation_amended ⟨[u1row], [], [], [], [], 1, 1, 1, 1⟩ 7 "ghost"
  exact ⟨st', h1, h3 (by decide)⟩

/-- C10: because `load_workout_plan` tests `if plan_id:` (truthiness),
`plan_id = 0` behaves exactly like an omitted `plan_id`: it returns all
of the user's active plans ordered by creation date descending, not a
single-plan lookup or a not-found result. -/
theorem C10_load_plan_id_zero (st : DBState) (uid : String) :
    load_workout_plan st uid (some 0) = load_workout_plan st uid none ∧
    load_workout_plan st uid (some 0) =
      LoadPlanResult.plans (activePlansDesc st uid) := by
  constructor <;> simp [load_workout_plan, intOptTruthy]

/-- C3: on any successful save, the stored plan's `cycle_number` is a
snapshot of the owner's `current_cycle_number` at insert time; advancing
the user's rotation afterwards touches no plan row, so looking the plan
up by id still returns it with its original `cycle_number` (the
`hfresh` hypothesis states that plan ids are assigned freshly, which the
autoincrement key guarantees). -/
theorem C3_cycle_snapshot {st : DBState} {now : Nat} {uid pn : String}
    {exs : List PlannedInput} {ns : Option String} {st' : DBState} {pl : PlanRow}
    (hfresh : ∀ p ∈ st.plans, p.plan_id < st.next_plan_id)
    (h : save_workout_plan st now uid pn exs ns = Except.ok (st', pl)) :
    (∃ u, get_user st uid = some u ∧ pl.cycle_number = u.current_cycle_number) ∧
    ∀ (now2 : Nat) (uid2 : String) (st'' : DBState),
      update_user_rotation st' now2 uid2 = Except.ok st'' →
      st''.plans = st'.plans ∧
      st''.plans.find? (fun p => p.plan_id == pl.plan_id) = some pl := by
  obtain ⟨user, hgu, hpl, hplans, husers, hcap⟩ := save_ok_spec h
  constructor
  · exact ⟨user, hgu, by rw [hpl]⟩
  · intro now2 uid2 st'' hrot
    have h1 := wrapCursor_ok hrot
    simp only [Except.ok.injEq] at h1
    have hpp : st''.plans = st'.plans := by rw [← h1]
    refine ⟨hpp, ?_⟩
    have hnone : st.plans.find? (fun p => p.plan_id == pl.plan_id) = none := by
      apply List.find?_eq_none.mpr
      intro p hp
      have hlt := hfresh p hp
      have hid : pl.plan_id = st.next_plan_id := by rw [hpl]
      simp only [beq_iff_eq, hid]
      omega
    rw [hpp, hplans, find?_append_of_none _ hnone]
    simp [List.find?_cons]

/-- C3 witness: concrete run — save a plan while `u1` is at cycle 1,
advance `u1`'s rotation (counter becomes 2), and the saved plan, looked
up by id, still carries `cycle_number = 1`. -/
theorem C3_witness :
    ∃ stS stR pl,
      save_workout_plan stNoPlans 5 "u1" "Plan A" [⟨1, 3, 10, none, none, none⟩] none
          = Except.ok (stS, pl) ∧
      pl.cycle_number = 1 ∧
      update_user_rotation stS 9 "u1" = Except.ok stR ∧
      (get_user stR "u1").map (fun u => u.current_cycle_number) = some 2 ∧
      stR.plans.find? (fun p => p.plan_id == pl.plan_id) = some pl := by
  have hsave : save_workout_plan stNoPlans 5 "u1" "Plan A"
      [⟨1, 3, 10, none, none, none⟩] none
      = Except.ok
        (⟨[u1row], [pushupsRow], [⟨1, "u1", "Plan A", 1, true, 5, none⟩],
          [⟨1, 1, 1, 3, 10, none, none, none, 1⟩], [], 2, 2, 2, 1⟩,
         ⟨1, "u1", "Plan A", 1, true, 5, none⟩) := by rfl
  obtain ⟨_, h2⟩ := C3_cycle_snapshot (by decide) hsave
  have hrot : update_user_rotation
      (⟨[u1row], [pushupsRow], [⟨1, "u1", "Plan A", 1, true, 5, none⟩],
        [⟨1, 1, 1, 3, 10, none, none, none, 1⟩], [], 2, 2, 2, 1⟩ : DBState) 9 "u1"
      = Except.ok
        ⟨[⟨"u1", "User One", 0, 6, some 9, 2⟩], [pushupsRow],
         [⟨1, "u1", "Plan A", 1, true, 5, none⟩],
         [⟨1, 1, 1, 3, 10, none, none, none, 1⟩], [], 2, 2, 2, 1⟩ := by rfl
  obtain ⟨hp, hf⟩ := h2 9 "u1" _ hrot
  exact ⟨_, _, _, hsave, by rfl, hrot, by rfl, hf⟩

/-- C2 helper: any sequence of `save_workout_plan` calls preserves the
3-active-plan bound for every user, because the `enforce_max_active_plans`
trigger aborts any insert that would make a 4th active plan. -/
theorem applySaves_cap {u : String} :
    ∀ (l : List SaveCall) (st : DBState),
      get_active_plan_count st u ≤ 3 →
      get_active_plan_count (applySaves st l) u ≤ 3 := by
  intro l
  induction l with
  | nil => intro st h; exact h
  | cons c rest ih =>
    intro st h
    simp only [applySaves]
    cases hs : save_workout_plan st c.now c.user_id c.plan_name c.exercises_list c.notes with
    | error e => exact ih st h
    | ok p =>
      obtain ⟨st', pl⟩ := p
      apply ih
      obtain ⟨user, hgu, hpl, hplans, husers, hcap⟩ := save_ok_spec hs
      have hact : pl.is_active = true := by rw [hpl]
      rw [count_append_active hplans hact u]
      by_cases hu : (pl.user_id == u) = true
      · have heq : c.user_id = u := by
          have huid : pl.user_id = c.user_id := by rw [hpl]
          rw [← huid]; exact beq_iff_eq.mp hu
        rw [heq] at hcap
        rw [if_pos hu]
        omega
      · rw [if_neg hu]
        omega

/-- C2 (amended): the active-plan count never exceeds 3 under any
sequence of saves, and a save attempted while 3 plans are active (for an
existing user) fails — but the error that reaches the caller is the
generic storage-class `DatabaseError` produced by `get_cursor`'s blanket
rewrap (mapped to a 500 envelope by the dispatch layer), with the
plan-limit text only embedded in its wrapped message, not the
validation-class error the claim describes. -/
theorem C2_active_cap_amended (st : DBState) (l : List SaveCall) (u : String)
    (hc : get_active_plan_count st u ≤ 3) :
    get_active_plan_count (applySaves st l) u ≤ 3 ∧
    (get_active_plan_count st u = 3 →
      ∀ user, get_user st u = some user →
      ∀ (now : Nat) (pn : String) (exs : List PlannedInput) (ns : Option String),
        save_workout_plan st now u pn exs ns =
          Except.error (PyError.databaseError
            "Database operation failed: User already has 3 active workout plans. Cannot create more.") ∧
        (handle_database_error (PyError.databaseError
            "Database operation failed: User already has 3 active workout plans. Cannot create more.")).code
          = 500) := by
  refine ⟨applySaves_cap l st hc, ?_⟩
  intro h3 user hgu now pn exs ns
  refine ⟨?_, rfl⟩
  have htrig : insertPlanRow st now u pn user.current_cycle_number ns =
      Except.error (PyError.integrityError triggerMessage) := by
    rw [insertPlanRow]
    rw [if_pos (show 3 ≤ get_active_plan_count st u by omega)]
  rw [save_workout_plan]
  simp only [hgu]
  simp only [htrig]
  rfl

/-- C2 counterexample: starting from a user with no plans, three saves
succeed; the fourth fails, but what reaches the caller is the generic
storage error (`DatabaseError`, mapped to the 500 envelope hiding the
message) — not a validation-class error — with the limit text only inside
the wrapped internal message. This refutes "surfaced as a
validation-class error, not a generic storage failure". -/
theorem C2_counterexample :
    ∃ s1 s2 s3 p1 p2 p3,
      save_workout_plan stNoPlans 1 "u1" "Plan A" [] none = Except.ok (s1, p1) ∧
      save_workout_plan s1 2 "u1" "Plan B" [] none = Except.ok (s2, p2) ∧
      save_workout_plan s2 3 "u1" "Plan C" [] none = Except.ok (s3, p3) ∧
      ∃ m, save_workout_plan s3 4 "u1" "Plan D" [] none
            = Except.error (PyError.databaseError m) ∧
        handle_database_error (PyError.databaseError m)
          = ⟨"Database error", "Internal database error", 500⟩ ∧
        (handle_database_error (PyError.databaseError m)).code ≠ 400 ∧
        str_has_sub m "already has 3 active workout plans" = true := by
  exact ⟨_, _, _, _, _, _, rfl, rfl, rfl, _, rfl, rfl, by decide, by decide⟩

/-- C2 witness: concrete run of the amended theorem at a state holding 3
active plans for `u1`. -/
theorem C2_witness :
    get_active_plan_count (applySaves stThreePlans []) "u1" ≤ 3 ∧
    save_workout_plan stThreePlans 9 "u1" "Plan D" [] none =
      Except.error (PyError.databaseError
        "Database operation failed: User already has 3 active workout plans. Cannot create more.") := by
  obtain ⟨h1, h2⟩ := C2_active_cap_amended stThreePlans [] "u1" (by decide)
  exact ⟨h1, (h2 (by decide) u1row (by rfl) 9 "Plan D" [] none).1⟩

/-! ## C5: exercise listing -/

instance : IsTotal ExerciseRow (fun a b => a.name ≤ b.name) :=
  ⟨fun a b => le_total a.name b.name⟩

instance : IsTrans ExerciseRow (fun a b => a.name ≤ b.name) :=
  ⟨fun _ _ _ hab hbc => le_trans hab hbc⟩

/-- C5: for every combination of optional filters, `list_exercises`
returns exercises sorted by name ascending, and a stored exercise is in
the result exactly when it satisfies all provided filters conjunctively —
the muscle-group and equipment filters being containment of the quoted
value in the stored serialized field (`LIKE '%"v"%'`), not an exact match
of the whole field. -/
theorem C5_list_exercises_spec (st : DBState) (mg eqp : Option String)
    (diff : Option Int) :
    List.Sorted (fun a b : ExerciseRow => a.name ≤ b.name)
      (list_exercises st mg eqp diff) ∧
    ∀ e, e ∈ list_exercises st mg eqp diff ↔
      (e ∈ st.exercises ∧ mgCondition mg e = true ∧ eqCondition eqp e = true ∧
        diffCondition diff e = true) := by
  constructor
  · exact List.sorted_insertionSort _ _
  · intro e
    rw [list_exercises]
    rw [List.mem_insertionSort]
    simp [List.mem_filter, and_assoc]

def rowA : ExerciseRow :=
  ⟨1, "A", "a", serialize_json_field ["chest"],
   serialize_json_field ["dumbbells"], 2, "i", 0, "u1"⟩

def rowB : ExerciseRow :=
  ⟨2, "B", "b", serialize_json_field ["chest"],
   serialize_json_field ["bodyweight"], 1, "i", 0, "u1"⟩

def rowC : ExerciseRow :=
  ⟨3, "C", "c", serialize_json_field ["back"],
   serialize_json_field ["dumbbells"], 2, "i", 0, "u1"⟩

/-- The claim's example catalog: A chest+dumbbells diff 2, B
chest+bodyweight diff 1, C back+dumbbells diff 2. -/
def stABC : DBState := ⟨[u1row], [rowA, rowB, rowC], [], [], [], 4, 1, 1, 1⟩

/-- C5 witness: filtering the example catalog by muscle_group=chest AND
equipment=dumbbells returns exactly A; the sortedness conclusion is
instantiated at the same input. -/
theorem C5_witness :
    list_exercises stABC (some "chest") (some "dumbbells") none = [rowA] ∧
    List.Sorted (fun a b : ExerciseRow => a.name ≤ b.name)
      (list_exercises stABC (some "chest") (some "dumbbells") none) ∧
    (rowB ∈ list_exercises stABC (some "chest") (some "dumbbells") none ↔
      (rowB ∈ stABC.exercises ∧ mgCondition (some "chest") rowB = true ∧
        eqCondition (some "dumbbells") rowB = true ∧
        diffCondition none rowB = true)) :=
  ⟨by decide,
   (C5_list_exercises_spec stABC (some "chest") (some "dumbbells") none).1,
   (C5_list_exercises_spec stABC (some "chest") (some "dumbbells") none).2 rowB⟩

/-! ## C7: exercise creation errors -/

theorem wrapCursor_not_valueError {α : Type} (r : Except PyError α) (m : String) :
    wrapCursor r ≠ Except.error (PyError.valueError m) := by
  cases r with
  | ok a => simp [wrapCursor]
  | error e => simp [wrapCursor]

/-- C7 (amended): `create_exercise` fails with a validation-class
`ValueError` exactly when `difficulty_level` is outside [1,5]; with a
valid difficulty, a duplicate name makes the store's UNIQUE constraint
fire, and the resulting `sqlite3.IntegrityError` is rewrapped by
`get_cursor` into the generic `DatabaseError` — the raw storage error
kind, mapped by the dispatch layer to the generic 500 envelope, with no
domain-level uniqueness error kind involved. -/
theorem C7_create_exercise_errors (st : DBState) (now : Nat)
    (name descr : String) (mgs eqp : List String) (diff : Int)
    (instr uid : String) :
    ((∃ m, create_exercise st now name descr mgs eqp diff instr uid
        = Except.error (PyError.valueError m)) ↔ ¬(1 ≤ diff ∧ diff ≤ 5)) ∧
    ((1 ≤ diff ∧ diff ≤ 5) →
      st.exercises.any (fun e => e.name == name) = true →
      create_exercise st now name descr mgs eqp diff instr uid
          = Except.error (PyError.databaseError
              "Database operation failed: UNIQUE constraint failed: exercises.name") ∧
      handle_database_error (PyError.databaseError
          "Database operation failed: UNIQUE constraint failed: exercises.name")
        = ⟨"Database error", "Internal database error", 500⟩) := by
  have hval : validate_difficulty_level diff = true ↔ (1 ≤ diff ∧ diff ≤ 5) := by
    simp [validate_difficulty_level]
  constructor
  · constructor
    · rintro ⟨m, hm⟩ hrange
      rw [create_exercise, if_pos (hval.mpr hrange)] at hm
      exact wrapCursor_not_valueError _ m hm
    · intro hrange
      refine ⟨"Difficulty level must be between 1 and 5", ?_⟩
      rw [create_exercise, if_neg]
      intro hv
      exact hrange (hval.mp hv)
  · intro hrange hdup
    refine ⟨?_, rfl⟩
    rw [create_exercise, if_pos (hval.mpr hrange)]
    rw [if_pos hdup]
    rfl

/-- C7 witness: difficulty 6 is rejected with the validation error,
difficulty 5 is not, and creating a second "Push-ups" yields the generic
wrapped storage error. -/
theorem C7_witness :
    (∃ m, create_exercise stNoPlans 0 "New Ex" "d" ["chest"] ["mat"] 6 "i" "u1"
        = Except.error (PyError.valueError m)) ∧
    (¬ ∃ m, create_exercise stNoPlans 0 "Other Ex" "d" ["chest"] ["mat"] 5 "i" "u1"
        = Except.error (PyError.valueError m)) ∧
    create_exercise stOnePlan 0 "Push-ups" "d" ["chest"] ["mat"] 3 "i" "u1"
      = Except.error (PyError.databaseError
          "Database operation failed: UNIQUE constraint failed: exercises.name") := by
  refine ⟨?_, ?_, ?_⟩
  · exact (C7_create_exercise_errors stNoPlans 0 "New Ex" "d" ["chest"] ["mat"]
      6 "i" "u1").1.mpr (by omega)
  · intro hex
    exact ((C7_create_exercise_errors stNoPlans 0 "Other Ex" "d" ["chest"] ["mat"]
      5 "i" "u1").1.mp hex) (by omega)
  · exact ((C7_create_exercise_errors stOnePlan 0 "Push-ups" "d" ["chest"] ["mat"]
      3 "i" "u1").2 (by omega) (by decide)).1

/-- C7 counterexample: the claim says a duplicate name yields a
domain-level uniqueness error, "never surfaced to callers as a raw
storage error" — but creating a second "Push-ups" returns the generic
`DatabaseError` produced by `get_cursor`'s blanket rewrap (not any
validation/domain error kind), and the dispatch layer surfaces it as the
generic 500 storage envelope. -/
theorem C7_counterexample :
    create_exercise stOnePlan 0 "Push-ups" "d2" ["chest"] ["mat"] 2 "i2" "u1"
        = Except.error (PyError.databaseError
            "Database operation failed: UNIQUE constraint failed: exercises.name") ∧
    (∀ m, create_exercise stOnePlan 0 "Push-ups" "d2" ["chest"] ["mat"] 2 "i2" "u1"
        ≠ Except.error (PyError.valueError m)) ∧
    handle_database_error (PyError.databaseError
        "Database operation failed: UNIQUE constraint failed: exercises.name")
      = ⟨"Database error", "Internal database error", 500⟩ := by
  refine ⟨by rfl, ?_, rfl⟩
  intro m hm
  rw [show create_exercise stOnePlan 0 "Push-ups" "d2" ["chest"] ["mat"] 2 "i2" "u1"
      = Except.error (PyError.databaseError
          "Database operation failed: UNIQUE constraint failed: exercises.name")
    from rfl] at hm
  simp at hm

/-! ## C8: JSON deserialization fallback -/

/-- C8: `deserialize_json_field` is total — it returns the decoded value
whenever `json.loads` succeeds and degrades to the empty list (never
propagating the decode error) whenever `json.loads` fails. -/
theorem C8_deserialize_fallback (s : String) :
    (∀ v, json_loads s = Except.ok v → deserialize_json_field s = v) ∧
    (∀ e, json_loads s = Except.error e →
      deserialize_json_field s = JsonValue.arr []) := by
  constructor
  · intro v hv
    simp only [deserialize_json_field, hv]
  · intro e he
    simp only [deserialize_json_field, he]

/-- C8 witness: a well-formed stored field decodes to its value; the
malformed string "[1" (and any other malformed input) degrades to the
empty list instead of raising. -/
theorem C8_witness :
    deserialize_json_field "[\"chest\", \"back\"]"
      = JsonValue.arr [JsonValue.str "chest", JsonValue.str "back"] ∧
    deserialize_json_field "[1" = JsonValue.arr [] := by
  constructor
  · exact (C8_deserialize_fallback "[\"chest\", \"back\"]").1 _ (by rfl)
  · exact (C8_deserialize_fallback "[1").2 "Expecting value" (by rfl)

/-! ## C9: record-type case-insensitivity -/

/-- C9: `validate_record_type` is case-insensitive — it accepts exactly
the strings whose lowercase form is in the enumeration — while the
`personal_records` CHECK constraint accepts only the exact lowercase
spellings; so a mixed-case record type that passes the domain validator
is rejected at insert time by the CHECK constraint, whose
`IntegrityError` is rewrapped by `get_cursor` into the storage-class
`DatabaseError` (not a validation `ValueError`). -/
theorem C9_record_type_case (s : String) :
    (validate_record_type s = true ↔ str_lower s ∈ valid_types) ∧
    (validate_record_type s = true → valid_types.contains s = false →
      ∀ (st : DBState) (now : Nat) (uid en : String) (v : Int) (un : String)
        (dt : Option Nat) (ns : Option String),
        save_personal_record st now uid en s v un dt ns =
          Except.error (PyError.databaseError
            "Database operation failed: CHECK constraint failed: record_type")) := by
  constructor
  · simp [validate_record_type, List.contains]
  · intro hv hex st now uid en v un dt ns
    rw [save_personal_record, if_pos hv, if_pos hex]
    rfl

/-- C9 witness: "Weight" passes the domain validator but the insert is
rejected by the CHECK constraint and surfaces as the wrapped storage
error. -/
theorem C9_witness :
    validate_record_type "Weight" = true ∧
    save_personal_record stNoPlans 3 "u1" "Bench" "Weight" 100 "lbs" none none =
      Except.error (PyError.databaseError
        "Database operation failed: CHECK constraint failed: record_type") :=
  ⟨by decide,
   (C9_record_type_case "Weight").2 (by decide) (by decide)
     stNoPlans 3 "u1" "Bench" 100 "lbs" none none⟩

end AmaCoach
